import Mathlib

/-!
Verification of the `python-vehicle` RDW client.

A shallow embedding, in Lean 4, of the `python-vehicle` repository: an
asynchronous Python client that fetches Dutch vehicle-registration data
(RDW, Socrata open data) by license plate and maps the JSON payload to a
typed `Vehicle` record.

Embedding conventions:
* Python strings are Lean `String`s (lists of characters); case conversion
  is modelled on the ASCII range, which covers every string constant in the
  repository.
* Fallible Python code (code that may raise) is modelled with `Option` /
  `Except`: `none` / `.error` means "an exception was raised".
* The `aiohttp` transport is modelled as a function from the built request
  to a transport outcome (timeout, transport failure, or a response); the
  functions of the client return the list of requests actually issued so
  that "no network call is made" is a provable statement.
* `orjson.loads` of the response body is modelled by the `bodyJson` field
  of the response: `none` stands for a body that does not decode to a JSON
  array of objects (in Python that exception propagates untyped).
-/

/-! ## Python string primitives (ASCII model) -/

/-- Characters accepted by Python `str.strip()` with no argument,
restricted to the ASCII whitespace set: space, tab, newline, vertical tab,
form feed, carriage return. -/
def pyIsSpace (c : Char) : Bool :=
  c.toNat = 32 ∨ c.toNat = 9 ∨ c.toNat = 10 ∨ c.toNat = 11 ∨ c.toNat = 12 ∨ c.toNat = 13

/-- Python `str.upper()` on one character, ASCII range. -/
def pyUpperChar (c : Char) : Char :=
  if 97 ≤ c.toNat ∧ c.toNat ≤ 122 then Char.ofNat (c.toNat - 32) else c

/-- Python `str.lower()` on one character, ASCII range. -/
def pyLowerChar (c : Char) : Char :=
  if 65 ≤ c.toNat ∧ c.toNat ≤ 90 then Char.ofNat (c.toNat + 32) else c

/-- Python "cased" characters (letters), ASCII range; used by `str.title()`. -/
def pyIsAlpha (c : Char) : Bool :=
  (97 ≤ c.toNat ∧ c.toNat ≤ 122) ∨ (65 ≤ c.toNat ∧ c.toNat ≤ 90)

/-- Python `str.strip()` on a character list: drop whitespace from both ends. -/
def pyStrip (l : List Char) : List Char :=
  List.rdropWhile pyIsSpace (List.dropWhile pyIsSpace l)

/-- Python `str.strip()` on a string. -/
def pyStripStr (s : String) : String :=
  ⟨pyStrip s.data⟩

/-- Python `str.replace(old, new)` where `old` is a single character, as used
by the repository (`.replace("-", "")` and `.replace(" ", "")`): every
occurrence of `old` is replaced by `new`. -/
def pyReplace1 (old : Char) (new : List Char) : List Char → List Char
  | [] => []
  | c :: cs => if c = old then new ++ pyReplace1 old new cs else c :: pyReplace1 old new cs

/-- Worker for Python `str.title()`: the flag records whether the previous
character was cased; a cased character is uppercased after an uncased
character and lowercased after a cased one. -/
def pyTitleAux : Bool → List Char → List Char
  | _, [] => []
  | prevCased, c :: cs =>
    if pyIsAlpha c then
      (if prevCased then pyLowerChar c else pyUpperChar c) :: pyTitleAux true cs
    else
      c :: pyTitleAux false cs

/-- Python `str.title()` on a string (ASCII model). -/
def pyTitle (s : String) : String :=
  ⟨pyTitleAux false s.data⟩

/-- Python `needle in haystack` on strings: substring containment. -/
def pyIn (needle haystack : String) : Bool :=
  decide (needle.data <:+: haystack.data)

/-- Value of one decimal digit character. -/
def charDigitVal (c : Char) : Option Nat :=
  if 48 ≤ c.toNat ∧ c.toNat ≤ 57 then some (c.toNat - 48) else none

/-- Digits of a nonnegative decimal literal. -/
def parseDigitsAux : List Char → Nat → Option Nat
  | [], acc => some acc
  | c :: cs, acc =>
    match charDigitVal c with
    | some v => parseDigitsAux cs (acc * 10 + v)
    | none => none

/-- Python `int(s)` on a decimal string: surrounding whitespace is ignored,
an optional sign is accepted, then at least one digit.  (CPython also
accepts underscore digit separators; no string in the claims uses them.) -/
def pyInt (s : String) : Option Int :=
  match pyStrip s.data with
  | [] => none
  | '+' :: rest =>
      if rest = [] then none else (parseDigitsAux rest 0).map Int.ofNat
  | '-' :: rest =>
      if rest = [] then none else (parseDigitsAux rest 0).map (fun n => -(n : Int))
  | rest => (parseDigitsAux rest 0).map Int.ofNat

/-! ## Calendar dates and the `DateStrategy` of `models.py`

CPython's `datetime.strptime(value, "%Y%m%d")` compiles the format to the
regular expression
`(?P<Y>\d\d\d\d)(?P<m>1[0-2]|0[1-9]|[1-9])(?P<d>3[01]|[12]\d|0[1-9]|[1-9])`,
matches it at the start of the string with ordered alternation and
backtracking, raises `ValueError` when there is no match or when the first
match does not consume the whole string, and finally builds a
`datetime` (which checks the day against the month length and requires
`1 <= year <= 9999`).  The functions below reproduce exactly that. -/

/-- A calendar date as held by Python's `datetime.date`. -/
structure CalDate where
  year : Nat
  month : Nat
  day : Nat
deriving DecidableEq

/-- Character of one decimal digit. -/
def digitChar : Nat → Char
  | 0 => '0' | 1 => '1' | 2 => '2' | 3 => '3' | 4 => '4'
  | 5 => '5' | 6 => '6' | 7 => '7' | 8 => '8' | 9 => '9'
  | _ => '*'

/-- Two-digit zero-padded decimal rendering (`%m`, `%d` of `strftime`). -/
def pad2 (n : Nat) : List Char := [digitChar (n / 10), digitChar (n % 10)]

/-- Four-digit zero-padded decimal rendering (`%Y` of `strftime`, as
documented for CPython). -/
def pad4 (n : Nat) : List Char :=
  [digitChar (n / 1000), digitChar (n / 100 % 10), digitChar (n / 10 % 10), digitChar (n % 10)]

/-- The `(?P<Y>\d\d\d\d)` group: exactly four digits. -/
def parseYear4 : List Char → Option (Nat × List Char)
  | c1 :: c2 :: c3 :: c4 :: rest => do
    let v1 ← charDigitVal c1
    let v2 ← charDigitVal c2
    let v3 ← charDigitVal c3
    let v4 ← charDigitVal c4
    pure (v1 * 1000 + v2 * 100 + v3 * 10 + v4, rest)
  | _ => none

/-- Month alternative `1[0-2]`. -/
def altM10 : List Char → Option (Nat × List Char)
  | c1 :: c2 :: rest =>
    if c1 = '1' ∧ (c2 = '0' ∨ c2 = '1' ∨ c2 = '2') then some (10 + (c2.toNat - 48), rest)
    else none
  | _ => none

/-- Alternative `0[1-9]` (used for months and for days). -/
def altM0 : List Char → Option (Nat × List Char)
  | c1 :: c2 :: rest =>
    if c1 = '0' ∧ 49 ≤ c2.toNat ∧ c2.toNat ≤ 57 then some (c2.toNat - 48, rest)
    else none
  | _ => none

/-- Alternative `[1-9]`: a single nonzero digit (used for months and days). -/
def alt1 : List Char → Option (Nat × List Char)
  | c :: rest =>
    if 49 ≤ c.toNat ∧ c.toNat ≤ 57 then some (c.toNat - 48, rest) else none
  | _ => none

/-- Day alternative `3[01]`. -/
def altD30 : List Char → Option (Nat × List Char)
  | c1 :: c2 :: rest =>
    if c1 = '3' ∧ (c2 = '0' ∨ c2 = '1') then some (30 + (c2.toNat - 48), rest)
    else none
  | _ => none

/-- Day alternative `[12]\d`. -/
def altD1X : List Char → Option (Nat × List Char)
  | c1 :: c2 :: rest =>
    if (c1 = '1' ∨ c1 = '2') ∧ 48 ≤ c2.toNat ∧ c2.toNat ≤ 57
    then some ((c1.toNat - 48) * 10 + (c2.toNat - 48), rest)
    else none
  | _ => none

/-- The day group `3[01]|[12]\d|0[1-9]|[1-9]`, alternatives in regex order. -/
def parseDay (cs : List Char) : Option (Nat × List Char) :=
  (altD30 cs) <|> (altD1X cs) <|> (altM0 cs) <|> (alt1 cs)

/-- One month alternative followed by the day group; `none` makes the regex
engine backtrack to the next month alternative. -/
def tryMonthAlt (mres : Option (Nat × List Char)) : Option (Nat × Nat × List Char) :=
  match mres with
  | some (m, rest) => (parseDay rest).map (fun p => (m, p.1, p.2))
  | none => none

/-- The month and day groups with the regex engine's ordered backtracking:
the first (month alternative, day alternative) pair in preference order
that matches wins, whether or not it consumes the whole input. -/
def matchMD (cs : List Char) : Option (Nat × Nat × List Char) :=
  tryMonthAlt (altM10 cs) <|> tryMonthAlt (altM0 cs) <|> tryMonthAlt (alt1 cs)

/-- The month and day groups restricted to a full-consumption match,
as `_strptime` requires (`len(data_string) != found.end()` raises). -/
def matchMDExact (cs : List Char) : Option (Nat × Nat) :=
  match matchMD cs with
  | some (m, d, []) => some (m, d)
  | _ => none

/-- CPython `_strptime` for the fixed format `"%Y%m%d"`: the first regex
match must consume the entire string. -/
def strptimeYmd (s : String) : Option (Nat × Nat × Nat) :=
  match parseYear4 s.data with
  | some (y, rest) =>
    match matchMD rest with
    | some (m, d, rest2) => if rest2 = [] then some (y, m, d) else none
    | none => none
  | none => none

/-- Gregorian leap year, as `datetime` uses. -/
def isLeap (y : Nat) : Bool :=
  y % 4 = 0 ∧ (¬ y % 100 = 0 ∨ y % 400 = 0)

/-- Length of a month, as `datetime` uses. -/
def daysInMonth (y m : Nat) : Nat :=
  if m = 2 then (if isLeap y then 29 else 28)
  else if m = 4 ∨ m = 6 ∨ m = 9 ∨ m = 11 then 30
  else 31

/-- The validity check of the `datetime` constructor (`MINYEAR = 1`,
`MAXYEAR = 9999`). -/
def dateOk (y m d : Nat) : Bool :=
  1 ≤ y ∧ y ≤ 9999 ∧ 1 ≤ m ∧ m ≤ 12 ∧ 1 ≤ d ∧ d ≤ daysInMonth y m

/-- `DateStrategy.deserialize` of `models.py`:
`datetime.strptime(value, "%Y%m%d").replace(tzinfo=timezone.utc).date()`.
`none` models the `ValueError` raised on a failed parse or an invalid
date. -/
def DateStrategy_deserialize (s : String) : Option CalDate :=
  match strptimeYmd s with
  | some (y, m, d) => if dateOk y m d then some ⟨y, m, d⟩ else none
  | none => none

/-- `DateStrategy.serialize` of `models.py`:
`datetime.strftime(value, "%Y%m%d")` (zero-padded fields, the behaviour
CPython documents for `%Y`/`%m`/`%d`). -/
def DateStrategy_serialize (d : CalDate) : String :=
  ⟨pad4 d.year ++ pad2 d.month ++ pad2 d.day⟩

/-! ## Boolean strategy of `models.py` -/

/-- `StringIsBoolean.serialize`: `"Ja" if value else "Nee"`. -/
def StringIsBoolean_serialize (b : Bool) : String :=
  if b then "Ja" else "Nee"

/-- `StringIsBoolean.deserialize`: `value == "Ja"`. -/
def StringIsBoolean_deserialize (s : String) : Bool :=
  s = "Ja"

/-! ## Enumerations of `const.py` -/

/-- `VehicleType` (`const.py`): RDW vehicle types (a `str` Enum). -/
inductive VehicleType where
  | TAILER
  | PASSENGER_CAR
  | COMPANY_CAR
  | BUS
  | MOTORCYCLE
  | THREE_WHEELED_MOTOR_VEHICLE
  | MOPED
  | CENTER_AXLE_TRAILER
  | AGRICULTURAL_OR_FORESTRY_TRACTOR
  | AGRICULTURAL_OR_FORESTRY_TRACTOR_TRAILER
deriving DecidableEq

/-- The string value of each `VehicleType` member. -/
def VehicleType.value : VehicleType → String
  | .TAILER => "Aanhangwagen"
  | .PASSENGER_CAR => "Personenauto"
  | .COMPANY_CAR => "Bedrijfsauto"
  | .BUS => "Bus"
  | .MOTORCYCLE => "Motorfiets"
  | .THREE_WHEELED_MOTOR_VEHICLE => "Driewielig motorrijtuig"
  | .MOPED => "Bromfiets"
  | .CENTER_AXLE_TRAILER => "Middenasaanhangwagen"
  | .AGRICULTURAL_OR_FORESTRY_TRACTOR => "Land- of bosbouwtrekker"
  | .AGRICULTURAL_OR_FORESTRY_TRACTOR_TRAILER => "Land- of bosb aanhw of getr uitr stuk"

/-- Enum lookup by value, `VehicleType(value)` in Python; `none` models the
`ValueError` on an unknown value. -/
def VehicleType.fromValue (s : String) : Option VehicleType :=
  if s = "Aanhangwagen" then some .TAILER
  else if s = "Personenauto" then some .PASSENGER_CAR
  else if s = "Bedrijfsauto" then some .COMPANY_CAR
  else if s = "Bus" then some .BUS
  else if s = "Motorfiets" then some .MOTORCYCLE
  else if s = "Driewielig motorrijtuig" then some .THREE_WHEELED_MOTOR_VEHICLE
  else if s = "Bromfiets" then some .MOPED
  else if s = "Middenasaanhangwagen" then some .CENTER_AXLE_TRAILER
  else if s = "Land- of bosbouwtrekker" then some .AGRICULTURAL_OR_FORESTRY_TRACTOR
  else if s = "Land- of bosb aanhw of getr uitr stuk" then
    some .AGRICULTURAL_OR_FORESTRY_TRACTOR_TRAILER
  else none

/-- `VehicleInterior` (`const.py`): RDW interior types (a `str` Enum). -/
inductive VehicleInterior where
  | CAMPER
  | CARAVAN
  | CLOSED_INTERIOR
  | CONVERTIBLE
  | COUPE
  | FIRETRUCK
  | HATCHBACK
  | LIVESTOCK_TRUCK
  | MPV
  | OPEN_LOADING_FLOOR
  | OPEN_VEHICLE
  | SEDAN
  | STATION_WAGON
  | PICK_UP_TRUCK
deriving DecidableEq

/-- The string value of each `VehicleInterior` member. -/
def VehicleInterior.value : VehicleInterior → String
  | .CAMPER => "kampeerwagen"
  | .CARAVAN => "caravan"
  | .CLOSED_INTERIOR => "closed_interior"
  | .CONVERTIBLE => "cabriolet"
  | .COUPE => "coupe"
  | .FIRETRUCK => "brandweerwagen"
  | .HATCHBACK => "hatchback"
  | .LIVESTOCK_TRUCK => "veewagen"
  | .MPV => "MPV"
  | .OPEN_LOADING_FLOOR => "open laadvloer"
  | .OPEN_VEHICLE => "open wagen"
  | .SEDAN => "sedan"
  | .STATION_WAGON => "stationwagen"
  | .PICK_UP_TRUCK => "pick-up truck"

/-- Enum lookup by value, `VehicleInterior(value)` in Python. -/
def VehicleInterior.fromValue (s : String) : Option VehicleInterior :=
  if s = "kampeerwagen" then some .CAMPER
  else if s = "caravan" then some .CARAVAN
  else if s = "closed_interior" then some .CLOSED_INTERIOR
  else if s = "cabriolet" then some .CONVERTIBLE
  else if s = "coupe" then some .COUPE
  else if s = "brandweerwagen" then some .FIRETRUCK
  else if s = "hatchback" then some .HATCHBACK
  else if s = "veewagen" then some .LIVESTOCK_TRUCK
  else if s = "MPV" then some .MPV
  else if s = "open laadvloer" then some .OPEN_LOADING_FLOOR
  else if s = "open wagen" then some .OPEN_VEHICLE
  else if s = "sedan" then some .SEDAN
  else if s = "stationwagen" then some .STATION_WAGON
  else if s = "pick-up truck" then some .PICK_UP_TRUCK
  else none

/-- `VehicleOdometerJudgement` (`const.py`): odometer judgements (a `str` Enum). -/
inductive VehicleOdometerJudgement where
  | NO_JUDGEMENT
  | LOGICAL
  | ILLOGICAL
  | UNKNOWN
deriving DecidableEq

/-- The string value of each `VehicleOdometerJudgement` member. -/
def VehicleOdometerJudgement.value : VehicleOdometerJudgement → String
  | .NO_JUDGEMENT => "Geen oordeel"
  | .LOGICAL => "Logisch"
  | .ILLOGICAL => "Onlogisch"
  | .UNKNOWN => "UNKNOWN"

/-- Enum lookup by value, `VehicleOdometerJudgement(value)` in Python. -/
def VehicleOdometerJudgement.fromValue (s : String) : Option VehicleOdometerJudgement :=
  if s = "Geen oordeel" then some .NO_JUDGEMENT
  else if s = "Logisch" then some .LOGICAL
  else if s = "Onlogisch" then some .ILLOGICAL
  else if s = "UNKNOWN" then some .UNKNOWN
  else none

/-! ## The `Vehicle` record of `models.py` and its (de)serialization

The JSON object returned by the Socrata API is modelled by `RawVehicle`:
one optional slot per source key of the fixed mashumaro alias table
(`none` = key absent).  A slot holds a `JValue`: a JSON string, a JSON
number (integers are the only numbers that occur), or JSON `null`. -/

/-- A JSON value as relevant to this schema. -/
inductive JValue where
  | jstr (s : String)
  | jint (n : Int)
  | jnull
deriving DecidableEq

/-- The raw JSON object keyed by the API's native field names (the alias
table of `Vehicle` in `models.py`).  A missing key is `none`. -/
structure RawVehicle where
  merk : Option JValue := none
  kenteken : Option JValue := none
  handelsbenaming : Option JValue := none
  vervaldatum_apk : Option JValue := none
  datum_tenaamstelling : Option JValue := none
  tenaamstellen_mogelijk : Option JValue := none
  zuinigheidslabel : Option JValue := none
  cilinderinhoud : Option JValue := none
  export_indicator : Option JValue := none
  inrichting : Option JValue := none
  jaar_laatste_registratie_tellerstand : Option JValue := none
  wam_verzekerd : Option JValue := none
  catalogusprijs : Option JValue := none
  datum_eerste_toelating : Option JValue := none
  massa_ledig_voertuig : Option JValue := none
  massa_rijklaar : Option JValue := none
  aantal_cilinders : Option JValue := none
  aantal_deuren : Option JValue := none
  aantal_zitplaatsen : Option JValue := none
  aantal_rolstoelplaatsen : Option JValue := none
  aantal_wielen : Option JValue := none
  tellerstandoordeel : Option JValue := none
  openstaande_terugroepactie_indicator : Option JValue := none
  taxi_indicator : Option JValue := none
  voertuigsoort : Option JValue := none
deriving DecidableEq

/-- The typed `Vehicle` dataclass of `models.py`. -/
structure Vehicle where
  brand : String
  license_plate : String
  model : String
  apk_expiration : Option CalDate := none
  ascription_date : Option CalDate := none
  ascription_possible : Option Bool := none
  energy_label : Option String := none
  engine_capacity : Option Int := none
  exported : Option Bool := none
  interior : Option VehicleInterior := none
  last_odometer_registration_year : Option Int := none
  liability_insured : Option Bool := none
  list_price : Option Int := none
  first_admission : Option CalDate := none
  mass_empty : Option Int := none
  mass_driveable : Option Int := none
  number_of_cylinders : Option Int := none
  number_of_doors : Option Int := none
  number_of_seats : Option Int := none
  number_of_wheelchair_seats : Option Int := none
  number_of_wheels : Option Int := none
  odometer_judgement : Option VehicleOdometerJudgement := none
  pending_recall : Option Bool := none
  taxi : Option Bool := none
  vehicle_type : Option VehicleType := none
deriving DecidableEq

/-- Mashumaro's handling of an `Optional[str]` field: a missing key or JSON
`null` leaves the default `None`; a string is taken as is.  A non-string
payload is treated as a deserialization error here (CPython would let the
ill-typed value through unchecked; no such value occurs in this dataset or
in any claim). -/
def deserOptStr : Option JValue → Option (Option String)
  | none => some none
  | some .jnull => some none
  | some (.jstr s) => some (some s)
  | some (.jint _) => none

/-- A required `str` field (`merk`, `kenteken`, `handelsbenaming`): a
missing key raises `MissingField`. -/
def deserReqStr : Option JValue → Option String
  | some (.jstr s) => some s
  | _ => none

/-- An `Optional[bool]` field under the `StringIsBoolean` strategy: absent
or `null` stays `None`; any other payload is passed to
`StringIsBoolean.deserialize`, whose `value == "Ja"` comparison yields
`False` for every non-string payload. -/
def deserOptBool : Option JValue → Option (Option Bool)
  | none => some none
  | some .jnull => some none
  | some (.jstr s) => some (some (StringIsBoolean_deserialize s))
  | some (.jint _) => some (some false)

/-- An `Optional[date]` field under the `DateStrategy`: absent or `null`
stays `None`; a string goes through `strptime` (which may raise); a
non-string payload raises a `TypeError` inside `strptime`. -/
def deserOptDate : Option JValue → Option (Option CalDate)
  | none => some none
  | some .jnull => some none
  | some (.jstr s) => (DateStrategy_deserialize s).map some
  | some (.jint _) => none

/-- An `Optional[int]` field: absent or `null` stays `None`; a number is
taken as is; a string goes through `int(...)` (which may raise). -/
def deserOptInt : Option JValue → Option (Option Int)
  | none => some none
  | some .jnull => some none
  | some (.jint n) => some (some n)
  | some (.jstr s) => (pyInt s).map some

/-- An `Optional[VehicleInterior]` field: enum lookup by value. -/
def deserOptInterior : Option JValue → Option (Option VehicleInterior)
  | none => some none
  | some .jnull => some none
  | some (.jstr s) => (VehicleInterior.fromValue s).map some
  | some (.jint _) => none

/-- An `Optional[VehicleOdometerJudgement]` field: enum lookup by value. -/
def deserOptOdometer : Option JValue → Option (Option VehicleOdometerJudgement)
  | none => some none
  | some .jnull => some none
  | some (.jstr s) => (VehicleOdometerJudgement.fromValue s).map some
  | some (.jint _) => none

/-- An `Optional[VehicleType]` field: enum lookup by value. -/
def deserOptVehicleType : Option JValue → Option (Option VehicleType)
  | none => some none
  | some .jnull => some none
  | some (.jstr s) => (VehicleType.fromValue s).map some
  | some (.jint _) => none

/-- The sentinel substitution of `Vehicle.__pre_deserialize__`: a value of
`"Niet geregistreerd"` or `"N.v.t."` becomes `None` (an absent key is left
absent, since `d.get(key)` then returns `None`, which is not in the set). -/
def sentinelToNull (v : Option JValue) : Option JValue :=
  if v = some (.jstr "Niet geregistreerd") ∨ v = some (.jstr "N.v.t.") then some .jnull
  else v

/-- `Vehicle.__pre_deserialize__` of `models.py`: substitute the sentinels
on the three enum keys, then replace `d[key]` by `d[key].strip().title()`
for `"merk"` and `"handelsbenaming"`.  The indexing raises `KeyError` when
either key is absent, and `.strip()` raises `AttributeError` on a
non-string payload; both are modelled by `none`. -/
def Vehicle.pre_deserialize (r : RawVehicle) : Option RawVehicle :=
  match r.merk, r.handelsbenaming with
  | some (.jstr b), some (.jstr m) =>
    some { r with
      inrichting := sentinelToNull r.inrichting
      tellerstandoordeel := sentinelToNull r.tellerstandoordeel
      voertuigsoort := sentinelToNull r.voertuigsoort
      merk := some (.jstr (pyTitle (pyStripStr b)))
      handelsbenaming := some (.jstr (pyTitle (pyStripStr m))) }
  | _, _ => none

/-- The three required `str` fields of the alias table:
`merk`, `kenteken`, `handelsbenaming`. -/
def fdStrings (r' : RawVehicle) : Option (String × String × String) := do
  let brand ← deserReqStr r'.merk
  let license_plate ← deserReqStr r'.kenteken
  let model ← deserReqStr r'.handelsbenaming
  pure (brand, license_plate, model)

/-- The three date fields of the alias table:
`vervaldatum_apk`, `datum_tenaamstelling`, `datum_eerste_toelating`. -/
def fdDates (r' : RawVehicle) : Option (Option CalDate × Option CalDate × Option CalDate) := do
  let apk_expiration ← deserOptDate r'.vervaldatum_apk
  let ascription_date ← deserOptDate r'.datum_tenaamstelling
  let first_admission ← deserOptDate r'.datum_eerste_toelating
  pure (apk_expiration, ascription_date, first_admission)

/-- The five boolean fields of the alias table: `tenaamstellen_mogelijk`,
`export_indicator`, `wam_verzekerd`, `openstaande_terugroepactie_indicator`,
`taxi_indicator`. -/
def fdBools (r' : RawVehicle) :
    Option (Option Bool × Option Bool × Option Bool × Option Bool × Option Bool) := do
  let ascription_possible ← deserOptBool r'.tenaamstellen_mogelijk
  let exported ← deserOptBool r'.export_indicator
  let liability_insured ← deserOptBool r'.wam_verzekerd
  let pending_recall ← deserOptBool r'.openstaande_terugroepactie_indicator
  let taxi ← deserOptBool r'.taxi_indicator
  pure (ascription_possible, exported, liability_insured, pending_recall, taxi)

/-- The nine integer fields of the alias table. -/
def fdInts (r' : RawVehicle) :
    Option (Option Int × Option Int × Option Int × Option Int × Option Int ×
      Option Int × Option Int × Option Int × Option Int) := do
  let engine_capacity ← deserOptInt r'.cilinderinhoud
  let last_odometer_registration_year ← deserOptInt r'.jaar_laatste_registratie_tellerstand
  let list_price ← deserOptInt r'.catalogusprijs
  let mass_empty ← deserOptInt r'.massa_ledig_voertuig
  let mass_driveable ← deserOptInt r'.massa_rijklaar
  let number_of_cylinders ← deserOptInt r'.aantal_cilinders
  let number_of_doors ← deserOptInt r'.aantal_deuren
  let number_of_seats ← deserOptInt r'.aantal_zitplaatsen
  let number_of_wheelchair_seats ← deserOptInt r'.aantal_rolstoelplaatsen
  pure (engine_capacity, last_odometer_registration_year, list_price, mass_empty,
    mass_driveable, number_of_cylinders, number_of_doors, number_of_seats,
    number_of_wheelchair_seats)

/-- The remaining optional fields: `aantal_wielen`, `zuinigheidslabel`, and
the three enumerations. -/
def fdRest (r' : RawVehicle) :
    Option (Option Int × Option String × Option VehicleInterior ×
      Option VehicleOdometerJudgement × Option VehicleType) := do
  let number_of_wheels ← deserOptInt r'.aantal_wielen
  let energy_label ← deserOptStr r'.zuinigheidslabel
  let interior ← deserOptInterior r'.inrichting
  let odometer_judgement ← deserOptOdometer r'.tellerstandoordeel
  let vehicle_type ← deserOptVehicleType r'.voertuigsoort
  pure (number_of_wheels, energy_label, interior, odometer_judgement, vehicle_type)

/-- `Vehicle.from_dict`: `__pre_deserialize__` followed by the per-field
coercions of the mashumaro alias table (grouped by field type above).
`none` models any exception raised during deserialization. -/
def Vehicle.from_dict (r : RawVehicle) : Option Vehicle := do
  let r' ← Vehicle.pre_deserialize r
  let (brand, license_plate, model) ← fdStrings r'
  let (apk_expiration, ascription_date, first_admission) ← fdDates r'
  let (ascription_possible, exported, liability_insured, pending_recall, taxi) ← fdBools r'
  let (engine_capacity, last_odometer_registration_year, list_price, mass_empty,
    mass_driveable, number_of_cylinders, number_of_doors, number_of_seats,
    number_of_wheelchair_seats) ← fdInts r'
  let (number_of_wheels, energy_label, interior, odometer_judgement, vehicle_type) ← fdRest r'
  pure (Vehicle.mk brand license_plate model apk_expiration ascription_date
    ascription_possible energy_label engine_capacity exported interior
    last_odometer_registration_year liability_insured list_price first_admission
    mass_empty mass_driveable number_of_cylinders number_of_doors number_of_seats
    number_of_wheelchair_seats number_of_wheels odometer_judgement pending_recall
    taxi vehicle_type)

/-- Serialization of one optional field under a value serializer: `None`
becomes JSON `null` (the mashumaro config does not set `omit_none`). -/
def serOpt {α : Type} (f : α → JValue) : Option α → JValue
  | none => .jnull
  | some a => f a

/-- `Vehicle.to_dict`: serialization by alias with the configured
strategies (`StringIsBoolean`, `DateStrategy`), `str` enums serialized by
value, numbers as JSON numbers. -/
def Vehicle.to_dict (v : Vehicle) : RawVehicle where
  merk := some (.jstr v.brand)
  kenteken := some (.jstr v.license_plate)
  handelsbenaming := some (.jstr v.model)
  vervaldatum_apk := some (serOpt (fun d => .jstr (DateStrategy_serialize d)) v.apk_expiration)
  datum_tenaamstelling :=
    some (serOpt (fun d => .jstr (DateStrategy_serialize d)) v.ascription_date)
  tenaamstellen_mogelijk :=
    some (serOpt (fun b => .jstr (StringIsBoolean_serialize b)) v.ascription_possible)
  zuinigheidslabel := some (serOpt .jstr v.energy_label)
  cilinderinhoud := some (serOpt .jint v.engine_capacity)
  export_indicator := some (serOpt (fun b => .jstr (StringIsBoolean_serialize b)) v.exported)
  inrichting := some (serOpt (fun i => .jstr i.value) v.interior)
  jaar_laatste_registratie_tellerstand :=
    some (serOpt .jint v.last_odometer_registration_year)
  wam_verzekerd := some (serOpt (fun b => .jstr (StringIsBoolean_serialize b)) v.liability_insured)
  catalogusprijs := some (serOpt .jint v.list_price)
  datum_eerste_toelating :=
    some (serOpt (fun d => .jstr (DateStrategy_serialize d)) v.first_admission)
  massa_ledig_voertuig := some (serOpt .jint v.mass_empty)
  massa_rijklaar := some (serOpt .jint v.mass_driveable)
  aantal_cilinders := some (serOpt .jint v.number_of_cylinders)
  aantal_deuren := some (serOpt .jint v.number_of_doors)
  aantal_zitplaatsen := some (serOpt .jint v.number_of_seats)
  aantal_rolstoelplaatsen := some (serOpt .jint v.number_of_wheelchair_seats)
  aantal_wielen := some (serOpt .jint v.number_of_wheels)
  tellerstandoordeel := some (serOpt (fun j => .jstr j.value) v.odometer_judgement)
  openstaande_terugroepactie_indicator :=
    some (serOpt (fun b => .jstr (StringIsBoolean_serialize b)) v.pending_recall)
  taxi_indicator := some (serOpt (fun b => .jstr (StringIsBoolean_serialize b)) v.taxi)
  voertuigsoort := some (serOpt (fun t => .jstr t.value) v.vehicle_type)

/-! ## Exceptions of `exceptions.py` and the client of `rdw.py` -/

/-- The exception classes declared in `exceptions.py`. -/
inductive ExcClass where
  | RDWError
  | RDWUnknownLicensePlateError
  | RDWConnectionError
deriving DecidableEq

/-- The direct base class of each exception within the library
(`RDWError` itself derives from the builtin `Exception`, outside the
library). -/
def excParent : ExcClass → Option ExcClass
  | .RDWError => none
  | .RDWUnknownLicensePlateError => some .RDWError
  | .RDWConnectionError => some .RDWError

/-- Whether an exception of class `c` is caught by an `except h` handler:
`c` is `h` or (the hierarchy being one level deep) derives directly from
`h`. -/
def catchesAs (c h : ExcClass) : Bool :=
  c = h ∨ excParent c = some h

/-- A raised library exception: its class, its message, and the optional
second argument `{"Content-Type": ..., "response": ...}` that `_request`
attaches to the unexpected-response error. -/
structure RaisedError where
  cls : ExcClass
  msg : String
  details : Option (String × String)
deriving DecidableEq

/-- An HTTP request as built by `RDW._request`: the dataset URL, the
query (`kenteken` filter), and the two headers. -/
structure HttpRequest where
  url : String
  kenteken : String
  accept : String
  userAgent : String
deriving DecidableEq

/-- An HTTP response as consumed by `RDW._request`: status code, the
`Content-Type` header (`""` when the header is missing, as
`headers.get("Content-Type", "")` yields), and the body text.  `bodyJson`
models `orjson.loads` applied to the body: `some records` when the body is
a JSON array of objects, `none` otherwise. -/
structure HttpResponse where
  status : Nat
  contentType : String
  body : String
  bodyJson : Option (List RawVehicle)

/-- Outcome of the transport layer for one request: the timeout elapsed, a
transport-level error (`ClientError`, `socket.gaierror`, ...), or a
response. -/
inductive TransportOutcome where
  | timeout
  | transportError
  | response (r : HttpResponse)

/-- A transport: what the network does with a request.  `RDW._request`
issues at most one request per call. -/
def Transport : Type := HttpRequest → TransportOutcome

/-- The request built by `RDW._request` for a dataset and a plate query:
`GET https://opendata.rdw.nl/resource/{dataset}.json?kenteken={plate}` with
the `User-Agent` and `Accept` headers of `rdw.py` (`version` is what
`importlib.metadata.version` reports). -/
def mkRequest (version dataset kenteken : String) : HttpRequest where
  url := "https://opendata.rdw.nl/resource/" ++ dataset ++ ".json"
  kenteken := kenteken
  accept := "application/json, text/plain, */*"
  userAgent := "PythonVehicle/" ++ version

/-- `RDW._request`: build the request, send it, and classify the outcome.
Returns the response on success together with the list of requests issued;
a timeout or transport failure (including `raise_for_status`, which raises
`ClientResponseError` for a status of 400 or above) becomes an
`RDWConnectionError`; a response whose `Content-Type` does not contain
`"application/json"` becomes a generic `RDWError` carrying the content
type and the body text. -/
def RDW_request (version : String) (transport : Transport) (dataset kenteken : String) :
    Except RaisedError HttpResponse × List HttpRequest :=
  let req := mkRequest version dataset kenteken
  match transport req with
  | .timeout =>
    (.error ⟨.RDWConnectionError, "Timeout occurred while connecting to the Socrata API", none⟩,
      [req])
  | .transportError =>
    (.error ⟨.RDWConnectionError, "Error occurred while communicating with Socrata API", none⟩,
      [req])
  | .response resp =>
    if 400 ≤ resp.status then
      (.error ⟨.RDWConnectionError, "Error occurred while communicating with Socrata API", none⟩,
        [req])
    else if pyIn "application/json" resp.contentType then
      (.ok resp, [req])
    else
      (.error ⟨.RDWError, "Unexpected response from the Socrata API",
        some (resp.contentType, resp.body)⟩, [req])

/-- Python `license_plate or self.license_plate`: the argument unless it is
falsy (`None` or the empty string), else the configured default. -/
def pyOrPlate (arg deflt : Option String) : Option String :=
  match arg with
  | some s => if s = "" then deflt else some s
  | none => deflt

/-- `RDW.normalize_license_plate` of `rdw.py`:
`license_plate.upper().replace("-", "").replace(" ", "").strip()`. -/
def RDW.normalize_license_plate (license_plate : String) : String :=
  ⟨pyStrip (pyReplace1 ' ' [] (pyReplace1 '-' [] (license_plate.data.map pyUpperChar)))⟩

/-- Result of `RDW.vehicle`: a `Vehicle`, a raised library exception, or an
exception from outside the library's taxonomy (a JSON decode error or a
mashumaro deserialization error propagating untyped). -/
inductive FetchOutcome where
  | vehicle (v : Vehicle)
  | raised (e : RaisedError)
  | foreignError
deriving DecidableEq

/-- `RDW.vehicle`: resolve the plate (argument `or` configured default),
fail with a generic `RDWError` when none resolves, otherwise query the
plated-vehicles dataset `m9d7-ebf2` with the normalized plate, decode the
body, raise `RDWUnknownLicensePlateError` on an empty result array, and
map the first record through `Vehicle.from_dict`.  The second component
lists every request issued during the call. -/
def RDW_vehicle (version : String) (transport : Transport)
    (defaultPlate arg : Option String) : FetchOutcome × List HttpRequest :=
  match pyOrPlate arg defaultPlate with
  | none => (.raised ⟨.RDWError, "No license plate provided", none⟩, [])
  | some plate =>
    match RDW_request version transport "m9d7-ebf2" (RDW.normalize_license_plate plate) with
    | (.error e, reqs) => (.raised e, reqs)
    | (.ok resp, reqs) =>
      match resp.bodyJson with
      | none => (.foreignError, reqs)
      | some [] =>
        (.raised ⟨.RDWUnknownLicensePlateError,
          "License plate " ++ plate ++ " not found in RDW Socrata database", none⟩, reqs)
      | some (rec :: _) =>
        (match Vehicle.from_dict rec with
         | some v => .vehicle v
         | none => .foreignError, reqs)

/-! ## Derived views and concrete examples used by the theorems -/

/-- What field-level deserialization under `StringIsBoolean` actually does
to one optional boolean slot: a present string maps to the comparison with
`"Ja"`, a present non-string maps to `False`, and an absent key or JSON
`null` stays missing (`None`) rather than becoming `False`. -/
def boolFieldView : Option JValue → Option Bool
  | none => none
  | some .jnull => none
  | some (.jstr s) => some (StringIsBoolean_deserialize s)
  | some (.jint _) => some false

/-- A raw record carrying only the three required keys; every boolean key
is absent. -/
def exampleNoBooleans : RawVehicle where
  merk := some (.jstr "Skoda")
  kenteken := some (.jstr "11ZKZ3")
  handelsbenaming := some (.jstr "Citigo")

/-- The empty raw record: every key absent. -/
def emptyRaw : RawVehicle := {}

/-- A vehicle whose brand is not title-cased (`"BMW"`), used against the
round-trip claim. -/
def exampleVehicleBMW : Vehicle where
  brand := "BMW"
  license_plate := "00AA11"
  model := "X3"

/-- A transport that always answers 200 with an HTML body, used to
exercise the unexpected-response path. -/
def htmlTransport : Transport :=
  fun _ => .response ⟨200, "text/html", "boom", none⟩

/-- A transport that always answers 200 with an empty JSON array, used to
exercise the not-found path. -/
def emptyArrayTransport : Transport :=
  fun _ => .response ⟨200, "application/json", "[]", some []⟩

/-- A vehicle built from the three required fields only; brand and model
are already title-cased. -/
def exampleVehicleCitigo : Vehicle where
  brand := "Skoda"
  license_plate := "11ZKZ3"
  model := "Citigo"

/-- A fuller vehicle echoing the test fixture of the repository, with a
valid date, an engine capacity and an interior. -/
def exampleVehicleFixture : Vehicle where
  brand := "Skoda"
  license_plate := "11ZKZ3"
  model := "Citigo"
  apk_expiration := some ⟨2022, 1, 4⟩
  engine_capacity := some 999
  interior := some .HATCHBACK

/-! ## Character and digit lemmas -/

/-- Evaluation of `Char.toNat` after `Char.ofNat` for valid codepoints. -/
theorem toNat_ofNat_valid (n : Nat) (h : Nat.isValidChar n) : (Char.ofNat n).toNat = n := by
  unfold Char.ofNat
  rw [dif_pos h]
  unfold Char.ofNatAux Char.toNat
  simp [UInt32.toNat, UInt32.ofNatCore]

theorem charDigitVal_digitChar (k : Nat) (h : k < 10) :
    charDigitVal (digitChar k) = some k := by
  interval_cases k <;> decide

theorem parseYear4_pad4 (y : Nat) (hy : y < 10000) (rest : List Char) :
    parseYear4 (pad4 y ++ rest) = some (y, rest) := by
  have h1 : y / 1000 < 10 := by omega
  have h2 : y / 100 % 10 < 10 := Nat.mod_lt _ (by omega)
  have h3 : y / 10 % 10 < 10 := Nat.mod_lt _ (by omega)
  have h4 : y % 10 < 10 := Nat.mod_lt _ (by omega)
  show parseYear4 (digitChar (y / 1000) :: digitChar (y / 100 % 10) ::
    digitChar (y / 10 % 10) :: digitChar (y % 10) :: rest) = some (y, rest)
  rw [parseYear4, charDigitVal_digitChar _ h1, charDigitVal_digitChar _ h2,
    charDigitVal_digitChar _ h3, charDigitVal_digitChar _ h4]
  show some (y / 1000 * 1000 + y / 100 % 10 * 100 + y / 10 % 10 * 10 + y % 10, rest)
    = some (y, rest)
  congr 1
  congr 1
  omega

set_option maxRecDepth 100000 in
set_option maxHeartbeats 4000000 in
theorem matchMDExact_pad2 : ∀ m : Nat, m < 100 → ∀ d : Nat, d < 100 →
    matchMDExact (pad2 m ++ pad2 d) =
      (if 1 ≤ m ∧ m ≤ 12 ∧ 1 ≤ d ∧ d ≤ 31 then some (m, d) else none) := by
  decide

theorem daysInMonth_le_31 (y m : Nat) : daysInMonth y m ≤ 31 := by
  unfold daysInMonth
  split
  · split <;> omega
  · split <;> omega

/-- Reduction of `strptimeYmd` on a string made of an 8-digit render:
the year group always succeeds and the rest is the month/day match. -/
theorem strptimeYmd_render (y m d : Nat) (hy : y < 10000) :
    strptimeYmd ⟨pad4 y ++ pad2 m ++ pad2 d⟩ =
      (matchMDExact (pad2 m ++ pad2 d)).map (fun p => (y, p.1, p.2)) := by
  unfold strptimeYmd
  rw [show (String.mk (pad4 y ++ pad2 m ++ pad2 d)).data = pad4 y ++ (pad2 m ++ pad2 d) from
    by simp]
  rw [parseYear4_pad4 y hy]
  show (match matchMD (pad2 m ++ pad2 d) with
        | some (m, d, rest2) => if rest2 = [] then some (y, m, d) else none
        | none => none)
      = (matchMDExact (pad2 m ++ pad2 d)).map fun p => (y, p.1, p.2)
  unfold matchMDExact
  cases hmd : matchMD (pad2 m ++ pad2 d) with
  | none => rfl
  | some t =>
    obtain ⟨m1, d1, r⟩ := t
    cases r with
    | nil => rfl
    | cons a as => rfl

/-- Evaluation of the date deserializer on an arbitrary 8-digit numeric
string, written as its year/month/day digit groups. -/
theorem date_deser_render (y m d : Nat) (hy : y < 10000) (hm : m < 100) (hd : d < 100) :
    DateStrategy_deserialize ⟨pad4 y ++ pad2 m ++ pad2 d⟩ =
      (if dateOk y m d then some ⟨y, m, d⟩ else none) := by
  have hx := matchMDExact_pad2 m hm d hd
  unfold DateStrategy_deserialize
  rw [strptimeYmd_render y m d hy, hx]
  by_cases hc : 1 ≤ m ∧ m ≤ 12 ∧ 1 ≤ d ∧ d ≤ 31
  · rw [if_pos hc]
    rfl
  · rw [if_neg hc]
    have hfalse : dateOk y m d = false := by
      have hds := daysInMonth_le_31 y m
      unfold dateOk
      rw [decide_eq_false_iff_not]
      intro hok
      obtain ⟨h1, h2, h3, h4, h5, h6⟩ := hok
      exact hc ⟨h3, h4, h5, le_trans h6 hds⟩
    simp [hfalse]

/-- Serializing a valid date and parsing it back restores the date. -/
theorem DateStrategy_roundtrip (cd : CalDate) (h : dateOk cd.year cd.month cd.day = true) :
    DateStrategy_deserialize (DateStrategy_serialize cd) = some cd := by
  obtain ⟨y, m, d⟩ := cd
  dsimp only at h ⊢
  have hb : y < 10000 ∧ m < 100 ∧ d < 100 := by
    have hds := daysInMonth_le_31 y m
    unfold dateOk at h
    rw [decide_eq_true_iff] at h
    omega
  unfold DateStrategy_serialize
  rw [date_deser_render y m d hb.1 hb.2.1 hb.2.2, if_pos h]


/-! ## License-plate normalization lemmas -/

theorem pyReplace1_nil (old : Char) (l : List Char) :
    pyReplace1 old [] l = l.filter (fun c => c != old) := by
  induction l with
  | nil => rfl
  | cons c cs ih =>
    unfold pyReplace1
    by_cases h : c = old
    · rw [if_pos h]
      subst h
      simp [List.filter_cons, ih]
    · rw [if_neg h]
      simp [List.filter_cons, bne_iff_ne, h, ih]

theorem pyUpperChar_idem (c : Char) : pyUpperChar (pyUpperChar c) = pyUpperChar c := by
  unfold pyUpperChar
  by_cases h : 97 ≤ c.toNat ∧ c.toNat ≤ 122
  · rw [if_pos h]
    have hv : (Char.ofNat (c.toNat - 32)).toNat = c.toNat - 32 :=
      toNat_ofNat_valid _ (Or.inl (by omega))
    rw [if_neg (by rw [hv]; omega)]
  · rw [if_neg h, if_neg h]

theorem pyStrip_sublist (l : List Char) : List.Sublist (pyStrip l) l :=
  ((List.rdropWhile_prefix _ _).sublist).trans ((List.dropWhile_suffix _).sublist)

theorem pyStrip_idem (l : List Char) : pyStrip (pyStrip l) = pyStrip l := by
  unfold pyStrip
  have h1 : List.dropWhile pyIsSpace
      (List.rdropWhile pyIsSpace (List.dropWhile pyIsSpace l)) =
      List.rdropWhile pyIsSpace (List.dropWhile pyIsSpace l) := by
    obtain ⟨t, ht⟩ := List.rdropWhile_prefix pyIsSpace (List.dropWhile pyIsSpace l)
    cases hX : List.rdropWhile pyIsSpace (List.dropWhile pyIsSpace l) with
    | nil => rfl
    | cons b bs =>
      rw [hX] at ht
      have hq : (List.dropWhile pyIsSpace l).head? = some b := by
        rw [← ht]; rfl
      have hpb : pyIsSpace b = false := by
        have h2 := List.head?_dropWhile_not pyIsSpace l
        rw [hq] at h2
        exact h2
      rw [List.dropWhile_cons, hpb]
      simp
  rw [h1, List.rdropWhile_idempotent]

/-- What normalization actually computes: uppercase every character, drop
every space and every hyphen, then strip surrounding whitespace.  Embedded
non-space whitespace (a tab, say) survives. -/
theorem normalize_eq_strip_filter_map (s : String) :
    RDW.normalize_license_plate s =
      ⟨pyStrip ((s.data.map pyUpperChar).filter (fun c => c != ' ' && c != '-'))⟩ := by
  unfold RDW.normalize_license_plate
  rw [pyReplace1_nil, pyReplace1_nil, List.filter_filter]

theorem normalize_idem_helper (s : String) :
    RDW.normalize_license_plate (RDW.normalize_license_plate s) =
      RDW.normalize_license_plate s := by
  rw [normalize_eq_strip_filter_map, normalize_eq_strip_filter_map]
  show String.mk _ = String.mk _
  congr 1
  set p : Char → Bool := fun c => c != ' ' && c != '-' with hp
  set M : List Char := (s.data.map pyUpperChar).filter p with hM
  show pyStrip ((pyStrip M).map pyUpperChar |>.filter p) = pyStrip M
  have hmem : ∀ c ∈ pyStrip M, c ∈ M := fun c hc => (pyStrip_sublist M).subset hc
  have hfix : ∀ c ∈ pyStrip M, pyUpperChar c = c := by
    intro c hc
    have hcM := hmem c hc
    rw [hM, List.mem_filter] at hcM
    obtain ⟨a, _, rfl⟩ := List.mem_map.mp hcM.1
    exact pyUpperChar_idem a
  have hmap : (pyStrip M).map pyUpperChar = pyStrip M := by
    calc (pyStrip M).map pyUpperChar = (pyStrip M).map id := List.map_congr_left hfix
    _ = pyStrip M := List.map_id _
  rw [hmap]
  have hfil : (pyStrip M).filter p = pyStrip M := by
    rw [List.filter_eq_self]
    intro a ha
    have haM := hmem a ha
    rw [hM, List.mem_filter] at haM
    exact haM.2
  rw [hfil, pyStrip_idem]

/-! ## Deserialization lemmas -/

theorem deserOptBool_view (x : Option JValue) : deserOptBool x = some (boolFieldView x) := by
  cases x with
  | none => rfl
  | some v => cases v <;> rfl

theorem fdBools_view (r' : RawVehicle) :
    fdBools r' = some (boolFieldView r'.tenaamstellen_mogelijk,
      boolFieldView r'.export_indicator, boolFieldView r'.wam_verzekerd,
      boolFieldView r'.openstaande_terugroepactie_indicator,
      boolFieldView r'.taxi_indicator) := by
  unfold fdBools
  rw [deserOptBool_view, deserOptBool_view, deserOptBool_view, deserOptBool_view,
    deserOptBool_view]
  rfl

theorem pre_deserialize_passthrough (r r' : RawVehicle)
    (h : Vehicle.pre_deserialize r = some r') :
    r'.kenteken = r.kenteken ∧
    r'.tenaamstellen_mogelijk = r.tenaamstellen_mogelijk ∧
    r'.export_indicator = r.export_indicator ∧
    r'.wam_verzekerd = r.wam_verzekerd ∧
    r'.openstaande_terugroepactie_indicator = r.openstaande_terugroepactie_indicator ∧
    r'.taxi_indicator = r.taxi_indicator := by
  unfold Vehicle.pre_deserialize at h
  split at h
  · rename_i b m hb hm
    injection h with h
    subst h
    exact ⟨rfl, rfl, rfl, rfl, rfl, rfl⟩
  · exact absurd h (by simp)

theorem from_dict_bool_fields (r : RawVehicle) (v : Vehicle)
    (h : Vehicle.from_dict r = some v) :
    v.ascription_possible = boolFieldView r.tenaamstellen_mogelijk ∧
    v.exported = boolFieldView r.export_indicator ∧
    v.liability_insured = boolFieldView r.wam_verzekerd ∧
    v.pending_recall = boolFieldView r.openstaande_terugroepactie_indicator ∧
    v.taxi = boolFieldView r.taxi_indicator := by
  unfold Vehicle.from_dict at h
  cases hpre : Vehicle.pre_deserialize r with
  | none => rw [hpre] at h; exact absurd h (by simp)
  | some r' =>
    rw [hpre] at h
    obtain ⟨hk, hb1, hb2, hb3, hb4, hb5⟩ := pre_deserialize_passthrough r r' hpre
    simp only [Option.bind_eq_bind, Option.some_bind] at h
    cases hstrs : fdStrings r' with
    | none => rw [hstrs] at h; simp at h
    | some strs =>
    rw [hstrs] at h
    obtain ⟨b, p, m⟩ := strs
    simp only [Option.some_bind] at h
    cases hdates : fdDates r' with
    | none => rw [hdates] at h; simp at h
    | some dates =>
    rw [hdates] at h
    obtain ⟨d1, d2, d3⟩ := dates
    simp only [Option.some_bind] at h
    rw [fdBools_view r'] at h
    simp only [Option.some_bind] at h
    cases hints : fdInts r' with
    | none => rw [hints] at h; simp at h
    | some ints =>
    rw [hints] at h
    obtain ⟨i1, i2, i3, i4, i5, i6, i7, i8, i9⟩ := ints
    simp only [Option.some_bind] at h
    cases hrest : fdRest r' with
    | none => rw [hrest] at h; simp at h
    | some rest =>
    rw [hrest] at h
    obtain ⟨x1, x2, x3, x4, x5⟩ := rest
    simp only [Option.some_bind] at h
    injection h with h
    subst h
    rw [hb1, hb2, hb3, hb4, hb5]
    exact ⟨rfl, rfl, rfl, rfl, rfl⟩

theorem pre_deserialize_none_of_missing (r : RawVehicle)
    (h : r.merk = none ∨ r.handelsbenaming = none) :
    Vehicle.pre_deserialize r = none := by
  unfold Vehicle.pre_deserialize
  rcases h with h | h
  · rw [h]
  · rw [h]
    cases hm : r.merk with
    | none => rfl
    | some v => cases v <;> rfl

theorem from_dict_none_of_missing (r : RawVehicle)
    (h : r.merk = none ∨ r.handelsbenaming = none) :
    Vehicle.from_dict r = none := by
  unfold Vehicle.from_dict
  rw [pre_deserialize_none_of_missing r h]
  rfl

/-! ## Round-trip lemmas -/

theorem sentinel_ser_interior (x : Option VehicleInterior) :
    sentinelToNull (some (serOpt (fun i => .jstr i.value) x)) =
      some (serOpt (fun i => .jstr i.value) x) := by
  rcases x with _ | i
  · rfl
  · cases i <;> rfl

theorem sentinel_ser_odometer (x : Option VehicleOdometerJudgement) :
    sentinelToNull (some (serOpt (fun j => .jstr j.value) x)) =
      some (serOpt (fun j => .jstr j.value) x) := by
  rcases x with _ | j
  · rfl
  · cases j <;> rfl

theorem sentinel_ser_vehicle_type (x : Option VehicleType) :
    sentinelToNull (some (serOpt (fun t => .jstr t.value) x)) =
      some (serOpt (fun t => .jstr t.value) x) := by
  rcases x with _ | t
  · rfl
  · cases t <;> rfl

theorem pre_deserialize_toDict (v : Vehicle)
    (hb : pyTitle (pyStripStr v.brand) = v.brand)
    (hm : pyTitle (pyStripStr v.model) = v.model) :
    Vehicle.pre_deserialize v.to_dict = some v.to_dict := by
  unfold Vehicle.pre_deserialize Vehicle.to_dict
  dsimp only
  rw [hb, hm, sentinel_ser_interior, sentinel_ser_odometer, sentinel_ser_vehicle_type]

theorem deserOptBool_ser (ob : Option Bool) :
    deserOptBool (some (serOpt (fun b => .jstr (StringIsBoolean_serialize b)) ob)) = some ob := by
  rcases ob with _ | b
  · rfl
  · cases b <;> rfl

theorem deserOptInt_ser (oi : Option Int) :
    deserOptInt (some (serOpt .jint oi)) = some oi := by
  rcases oi with _ | n <;> rfl

theorem deserOptStr_ser (os : Option String) :
    deserOptStr (some (serOpt .jstr os)) = some os := by
  rcases os with _ | s <;> rfl

theorem deserOptDate_ser (od : Option CalDate)
    (h : ∀ cd ∈ od, dateOk cd.year cd.month cd.day = true) :
    deserOptDate (some (serOpt (fun d => .jstr (DateStrategy_serialize d)) od)) = some od := by
  rcases od with _ | cd
  · rfl
  · show (DateStrategy_deserialize (DateStrategy_serialize cd)).map some = some (some cd)
    rw [DateStrategy_roundtrip cd (h cd rfl)]
    rfl

theorem deserOptInterior_ser (x : Option VehicleInterior) :
    deserOptInterior (some (serOpt (fun i => .jstr i.value) x)) = some x := by
  rcases x with _ | i
  · rfl
  · cases i <;> rfl

theorem deserOptOdometer_ser (x : Option VehicleOdometerJudgement) :
    deserOptOdometer (some (serOpt (fun j => .jstr j.value) x)) = some x := by
  rcases x with _ | j
  · rfl
  · cases j <;> rfl

theorem deserOptVehicleType_ser (x : Option VehicleType) :
    deserOptVehicleType (some (serOpt (fun t => .jstr t.value) x)) = some x := by
  rcases x with _ | t
  · rfl
  · cases t <;> rfl

theorem fdStrings_toDict (v : Vehicle) :
    fdStrings v.to_dict = some (v.brand, v.license_plate, v.model) := rfl

theorem fdDates_toDict (v : Vehicle)
    (h1 : ∀ cd ∈ v.apk_expiration, dateOk cd.year cd.month cd.day = true)
    (h2 : ∀ cd ∈ v.ascription_date, dateOk cd.year cd.month cd.day = true)
    (h3 : ∀ cd ∈ v.first_admission, dateOk cd.year cd.month cd.day = true) :
    fdDates v.to_dict = some (v.apk_expiration, v.ascription_date, v.first_admission) := by
  unfold fdDates Vehicle.to_dict
  dsimp only
  rw [deserOptDate_ser _ h1, deserOptDate_ser _ h2, deserOptDate_ser _ h3]
  rfl

theorem fdBools_toDict (v : Vehicle) :
    fdBools v.to_dict = some (v.ascription_possible, v.exported, v.liability_insured,
      v.pending_recall, v.taxi) := by
  unfold fdBools Vehicle.to_dict
  dsimp only
  rw [deserOptBool_ser, deserOptBool_ser, deserOptBool_ser, deserOptBool_ser, deserOptBool_ser]
  rfl

theorem fdInts_toDict (v : Vehicle) :
    fdInts v.to_dict = some (v.engine_capacity, v.last_odometer_registration_year,
      v.list_price, v.mass_empty, v.mass_driveable, v.number_of_cylinders,
      v.number_of_doors, v.number_of_seats, v.number_of_wheelchair_seats) := by
  unfold fdInts Vehicle.to_dict
  dsimp only
  rw [deserOptInt_ser, deserOptInt_ser, deserOptInt_ser, deserOptInt_ser, deserOptInt_ser,
    deserOptInt_ser, deserOptInt_ser, deserOptInt_ser, deserOptInt_ser]
  rfl

theorem fdRest_toDict (v : Vehicle) :
    fdRest v.to_dict = some (v.number_of_wheels, v.energy_label, v.interior,
      v.odometer_judgement, v.vehicle_type) := by
  unfold fdRest Vehicle.to_dict
  dsimp only
  rw [deserOptInt_ser, deserOptStr_ser, deserOptInterior_ser, deserOptOdometer_ser,
    deserOptVehicleType_ser]
  rfl

/-- Round-trip: serializing a `Vehicle` whose brand and model are fixed
under strip-and-title-case and whose dates are valid, then deserializing,
restores the record. -/
theorem vehicle_roundtrip_helper (v : Vehicle)
    (hb : pyTitle (pyStripStr v.brand) = v.brand)
    (hm : pyTitle (pyStripStr v.model) = v.model)
    (h1 : ∀ cd ∈ v.apk_expiration, dateOk cd.year cd.month cd.day = true)
    (h2 : ∀ cd ∈ v.ascription_date, dateOk cd.year cd.month cd.day = true)
    (h3 : ∀ cd ∈ v.first_admission, dateOk cd.year cd.month cd.day = true) :
    Vehicle.from_dict v.to_dict = some v := by
  unfold Vehicle.from_dict
  rw [pre_deserialize_toDict v hb hm]
  simp only [Option.bind_eq_bind, Option.some_bind]
  rw [fdStrings_toDict v]
  simp only [Option.some_bind]
  rw [fdDates_toDict v h1 h2 h3]
  simp only [Option.some_bind]
  rw [fdBools_toDict v]
  simp only [Option.some_bind]
  rw [fdInts_toDict v]
  simp only [Option.some_bind]
  rw [fdRest_toDict v]
  simp only [Option.some_bind]
  rfl

/-! ## Client behaviour lemmas -/

theorem vehicle_no_plate (version : String) (transport : Transport) :
    RDW_vehicle version transport none none =
      (.raised ⟨.RDWError, "No license plate provided", none⟩, []) := rfl

theorem request_unexpected_response (version dataset kenteken : String)
    (transport : Transport) (resp : HttpResponse)
    (ht : transport (mkRequest version dataset kenteken) = .response resp)
    (h3 : resp.status < 400)
    (hj : pyIn "application/json" resp.contentType = false) :
    RDW_request version transport dataset kenteken =
      (.error ⟨.RDWError, "Unexpected response from the Socrata API",
        some (resp.contentType, resp.body)⟩, [mkRequest version dataset kenteken]) := by
  unfold RDW_request
  dsimp only
  rw [ht]
  dsimp only
  rw [if_neg (by omega), hj]
  simp

theorem vehicle_classify (version plate : String) (transport : Transport) (resp : HttpResponse)
    (hp : plate ≠ "")
    (ht : transport (mkRequest version "m9d7-ebf2" (RDW.normalize_license_plate plate)) =
      .response resp)
    (h3 : resp.status < 400)
    (hj : pyIn "application/json" resp.contentType = true) :
    (resp.bodyJson = some [] →
      RDW_vehicle version transport none (some plate) =
        (.raised ⟨.RDWUnknownLicensePlateError,
          "License plate " ++ plate ++ " not found in RDW Socrata database", none⟩,
          [mkRequest version "m9d7-ebf2" (RDW.normalize_license_plate plate)])) ∧
    (∀ rec rest, resp.bodyJson = some (rec :: rest) →
      RDW_vehicle version transport none (some plate) =
        ((match Vehicle.from_dict rec with
          | some v => FetchOutcome.vehicle v
          | none => FetchOutcome.foreignError),
          [mkRequest version "m9d7-ebf2" (RDW.normalize_license_plate plate)])) := by
  have hres : pyOrPlate (some plate) none = some plate := by
    unfold pyOrPlate
    dsimp only
    rw [if_neg hp]
  have hreq : RDW_request version transport "m9d7-ebf2" (RDW.normalize_license_plate plate) =
      (.ok resp, [mkRequest version "m9d7-ebf2" (RDW.normalize_license_plate plate)]) := by
    unfold RDW_request
    dsimp only
    rw [ht]
    dsimp only
    rw [if_neg (by omega), hj]
    simp
  constructor
  · intro hbody
    unfold RDW_vehicle
    rw [hres]
    dsimp only
    rw [hreq]
    dsimp only
    rw [hbody]
  · intro rec rest hbody
    unfold RDW_vehicle
    rw [hres]
    dsimp only
    rw [hreq]
    dsimp only
    rw [hbody]

/-! ## Claim theorems -/

/-- Claim C1, counterexample: a record in which every boolean-aliased key
is absent deserializes to a vehicle whose `exported` field is missing
(`none`), not `false` as the claim states for absent fields. -/
theorem claim_C1_counterexample :
    (Vehicle.from_dict exampleNoBooleans).map Vehicle.exported = some none ∧
    (Vehicle.from_dict exampleNoBooleans).map Vehicle.exported ≠ some (some false) := by
  constructor
  · decide
  · decide

/-- Claim C1 as amended: for every record that deserializes successfully,
each of the five boolean fields equals the comparison of the present
string with `"Ja"` (so `true` exactly for `"Ja"`, and every other present
string gives `false`), while an absent key or a JSON `null` yields the
missing value `none`, not `false`. -/
theorem claim_C1 (r : RawVehicle) (v : Vehicle)
    (h : Vehicle.from_dict r = some v) :
    v.ascription_possible = boolFieldView r.tenaamstellen_mogelijk ∧
    v.exported = boolFieldView r.export_indicator ∧
    v.liability_insured = boolFieldView r.wam_verzekerd ∧
    v.pending_recall = boolFieldView r.openstaande_terugroepactie_indicator ∧
    v.taxi = boolFieldView r.taxi_indicator :=
  from_dict_bool_fields r v h

/-- Witness for claim C1's theorem at a concrete record. -/
theorem claim_C1_witness :
    exampleVehicleCitigo.ascription_possible =
      boolFieldView exampleNoBooleans.tenaamstellen_mogelijk ∧
    exampleVehicleCitigo.exported =
      boolFieldView exampleNoBooleans.export_indicator ∧
    exampleVehicleCitigo.liability_insured =
      boolFieldView exampleNoBooleans.wam_verzekerd ∧
    exampleVehicleCitigo.pending_recall =
      boolFieldView exampleNoBooleans.openstaande_terugroepactie_indicator ∧
    exampleVehicleCitigo.taxi =
      boolFieldView exampleNoBooleans.taxi_indicator :=
  claim_C1 exampleNoBooleans exampleVehicleCitigo (by decide)

/-- Claim C2, counterexample: the seven-character string `"2022104"` is not
an 8-digit string, yet it deserializes successfully (to 2022-10-04,
because `%m` and `%d` also match single digits), so "any other input
string causes a parse error" fails. -/
theorem claim_C2_counterexample :
    DateStrategy_deserialize "2022104" = some ⟨2022, 10, 4⟩ ∧
    "2022104".length ≠ 8 := by
  constructor
  · decide
  · decide

/-- Claim C2 as amended: on 8-digit numeric strings (written as their
year/month/day digit groups `pad4 y ++ pad2 m ++ pad2 d`, which covers
exactly the 8-digit numeric strings), deserialization succeeds precisely
for a valid calendar date — month `01`-`12`, day within the month, year
at least 1 — and then yields that date; every other 8-digit numeric
string (month 13, day 00, February 30, year 0000, ...) is a parse error.
Strings of other lengths are not all rejected, as the counterexample
shows. -/
theorem claim_C2 (y m d : Nat) (hy : y < 10000) (hm : m < 100) (hd : d < 100) :
    DateStrategy_deserialize ⟨pad4 y ++ pad2 m ++ pad2 d⟩ =
      (if dateOk y m d then some ⟨y, m, d⟩ else none) :=
  date_deser_render y m d hy hm hd

/-- Witness for claim C2's theorem at 2022-01-04. -/
theorem claim_C2_witness :
    DateStrategy_deserialize ⟨pad4 2022 ++ pad2 1 ++ pad2 4⟩ =
      (if dateOk 2022 1 4 then some ⟨2022, 1, 4⟩ else none) :=
  claim_C2 2022 1 4 (by decide) (by decide) (by decide)

/-- Claim C3, counterexample: the library declares only three exception
classes, not four.  The configuration error ("no plate") and the protocol
error ("unexpected response") are both raised as the base class `RDWError`
itself — the very root of the hierarchy, caught by every `except RDWError`
handler — so neither is catchable as a distinct kind of its own. -/
theorem claim_C3_counterexample :
    (RDW_vehicle "0.0.0" htmlTransport none none).1 =
      .raised ⟨.RDWError, "No license plate provided", none⟩ ∧
    (RDW_request "0.0.0" htmlTransport "m9d7-ebf2" "11ZKZ3").1 =
      .error ⟨.RDWError, "Unexpected response from the Socrata API",
        some ("text/html", "boom")⟩ ∧
    excParent .RDWError = none ∧
    catchesAs .RDWUnknownLicensePlateError .RDWError = true ∧
    catchesAs .RDWConnectionError .RDWError = true :=
  ⟨rfl, rfl, rfl, rfl, rfl⟩

/-- Claim C3 as amended: the taxonomy has three classes in a flat
hierarchy.  Not-found (`RDWUnknownLicensePlateError`) and connectivity
(`RDWConnectionError`) errors derive from the base `RDWError` and are each
catchable specifically; configuration and protocol errors are raised as
the base class itself, so they are catchable via the base but not
distinguishable from each other (or from the base) by class. -/
theorem claim_C3 :
    excParent .RDWUnknownLicensePlateError = some .RDWError ∧
    excParent .RDWConnectionError = some .RDWError ∧
    excParent .RDWError = none ∧
    (∀ (version : String) (transport : Transport),
      (RDW_vehicle version transport none none).1 =
        .raised ⟨.RDWError, "No license plate provided", none⟩) ∧
    (RDW_request "0.0.0" htmlTransport "m9d7-ebf2" "11ZKZ3").1 =
      .error ⟨.RDWError, "Unexpected response from the Socrata API",
        some ("text/html", "boom")⟩ ∧
    catchesAs .RDWUnknownLicensePlateError .RDWUnknownLicensePlateError = true ∧
    catchesAs .RDWConnectionError .RDWUnknownLicensePlateError = false ∧
    catchesAs .RDWError .RDWUnknownLicensePlateError = false ∧
    catchesAs .RDWConnectionError .RDWConnectionError = true ∧
    catchesAs .RDWUnknownLicensePlateError .RDWConnectionError = false ∧
    catchesAs .RDWError .RDWConnectionError = false ∧
    (∀ c : ExcClass, catchesAs c .RDWError = true) :=
  ⟨rfl, rfl, rfl, fun _ _ => rfl, rfl, rfl, rfl, rfl, rfl, rfl, rfl,
    fun c => by cases c <;> rfl⟩

/-- Claim C4: with no plate argument and no configured default, `vehicle`
raises the "No license plate provided" error (the spec's configuration
error, raised as the base `RDWError`) and the list of issued requests is
empty — no request is built or sent, whatever the transport would do. -/
theorem claim_C4 (version : String) (transport : Transport) :
    RDW_vehicle version transport none none =
      (.raised ⟨.RDWError, "No license plate provided", none⟩, []) :=
  vehicle_no_plate version transport

/-- Claim C5: under a 2xx JSON response, an empty decoded array makes
`vehicle` raise the not-found error (`RDWUnknownLicensePlateError`) —
never returning a vehicle — and a non-empty decoded array makes it pass
exactly the first element to `Vehicle.from_dict` and return the resulting
vehicle (or propagate the mapper's failure). -/
theorem claim_C5 (version plate : String) (transport : Transport) (resp : HttpResponse)
    (hp : plate ≠ "")
    (ht : transport (mkRequest version "m9d7-ebf2" (RDW.normalize_license_plate plate)) =
      .response resp)
    (h2 : 200 ≤ resp.status) (h3 : resp.status < 300)
    (hj : pyIn "application/json" resp.contentType = true) :
    (resp.bodyJson = some [] →
      RDW_vehicle version transport none (some plate) =
        (.raised ⟨.RDWUnknownLicensePlateError,
          "License plate " ++ plate ++ " not found in RDW Socrata database", none⟩,
          [mkRequest version "m9d7-ebf2" (RDW.normalize_license_plate plate)])) ∧
    (∀ rec rest, resp.bodyJson = some (rec :: rest) →
      RDW_vehicle version transport none (some plate) =
        ((match Vehicle.from_dict rec with
          | some v => FetchOutcome.vehicle v
          | none => FetchOutcome.foreignError),
          [mkRequest version "m9d7-ebf2" (RDW.normalize_license_plate plate)])) :=
  vehicle_classify version plate transport resp hp ht (by omega) hj

/-- Witness for claim C5's theorem: an empty-array 200 response yields the
not-found error. -/
theorem claim_C5_witness :
    RDW_vehicle "1.0" emptyArrayTransport none (some "11ZKZ3") =
      (.raised ⟨.RDWUnknownLicensePlateError,
        "License plate " ++ "11ZKZ3" ++ " not found in RDW Socrata database", none⟩,
        [mkRequest "1.0" "m9d7-ebf2" (RDW.normalize_license_plate "11ZKZ3")]) :=
  (claim_C5 "1.0" "11ZKZ3" emptyArrayTransport ⟨200, "application/json", "[]", some []⟩
    (by decide) rfl (by decide) (by decide) (by decide)).1 rfl

/-- Claim C6: a sub-400 (in particular 2xx) response whose `Content-Type`
does not contain `application/json` makes `_request` raise the
"Unexpected response" error, carrying the observed content type and the
raw body as its details. -/
theorem claim_C6 (version dataset kenteken : String) (transport : Transport)
    (resp : HttpResponse)
    (ht : transport (mkRequest version dataset kenteken) = .response resp)
    (h2 : 200 ≤ resp.status) (h3 : resp.status < 300)
    (hj : pyIn "application/json" resp.contentType = false) :
    RDW_request version transport dataset kenteken =
      (.error ⟨.RDWError, "Unexpected response from the Socrata API",
        some (resp.contentType, resp.body)⟩, [mkRequest version dataset kenteken]) :=
  request_unexpected_response version dataset kenteken transport resp ht (by omega) hj

/-- Witness for claim C6's theorem: a 200 `text/html` response yields the
unexpected-response error carrying `"text/html"` and the body. -/
theorem claim_C6_witness :
    RDW_request "0.1" htmlTransport "m9d7-ebf2" "XYZ" =
      (.error ⟨.RDWError, "Unexpected response from the Socrata API",
        some ("text/html", "boom")⟩, [mkRequest "0.1" "m9d7-ebf2" "XYZ"]) :=
  claim_C6 "0.1" "m9d7-ebf2" "XYZ" htmlTransport ⟨200, "text/html", "boom", none⟩
    rfl (by decide) (by decide) (by decide)

/-- Claim C7, counterexample: a vehicle whose brand is `"BMW"` does not
survive the round trip — `__pre_deserialize__` title-cases the brand to
`"Bmw"` on the way back in — so "for every Vehicle record" fails. -/
theorem claim_C7_counterexample :
    Vehicle.from_dict (Vehicle.to_dict exampleVehicleBMW) ≠ some exampleVehicleBMW ∧
    Vehicle.from_dict (Vehicle.to_dict exampleVehicleBMW) =
      some { exampleVehicleBMW with brand := "Bmw" } := by
  constructor
  · decide
  · decide

/-- Claim C7 as amended: encoding and then decoding restores the record
for every vehicle whose brand and model are fixed points of
strip-then-title-case (as every vehicle produced by deserialization is)
and whose dates are valid calendar dates. -/
theorem claim_C7 (v : Vehicle)
    (hb : pyTitle (pyStripStr v.brand) = v.brand)
    (hm : pyTitle (pyStripStr v.model) = v.model)
    (h1 : ∀ cd ∈ v.apk_expiration, dateOk cd.year cd.month cd.day = true)
    (h2 : ∀ cd ∈ v.ascription_date, dateOk cd.year cd.month cd.day = true)
    (h3 : ∀ cd ∈ v.first_admission, dateOk cd.year cd.month cd.day = true) :
    Vehicle.from_dict v.to_dict = some v :=
  vehicle_roundtrip_helper v hb hm h1 h2 h3

/-- Witness for claim C7's theorem on the fixture vehicle. -/
theorem claim_C7_witness :
    Vehicle.from_dict exampleVehicleFixture.to_dict = some exampleVehicleFixture :=
  claim_C7 exampleVehicleFixture (by decide) (by decide)
    (by
      intro cd h
      simp only [exampleVehicleFixture, Option.mem_def, Option.some.injEq] at h
      subst h
      decide)
    (by intro cd h; simp [exampleVehicleFixture, Option.mem_def] at h)
    (by intro cd h; simp [exampleVehicleFixture, Option.mem_def] at h)

/-- Claim C8, counterexample: normalization does not remove embedded
non-space whitespace: a tab between two letters survives (uppercased
letters aside), where the claim demands all embedded whitespace be
removed. -/
theorem claim_C8_counterexample :
    RDW.normalize_license_plate "a\tb" = "A\tB" ∧ ("A\tB" : String) ≠ "AB" := by
  constructor
  · decide
  · decide

/-- Claim C8 as amended: normalization is a pure total function equal to
uppercasing every character, removing every space and every hyphen, and
stripping surrounding whitespace; embedded non-space whitespace is kept.
Any string is accepted and the result may be empty. -/
theorem claim_C8 (s : String) :
    RDW.normalize_license_plate s =
      ⟨pyStrip ((s.data.map pyUpperChar).filter (fun c => c != ' ' && c != '-'))⟩ :=
  normalize_eq_strip_filter_map s

/-- Claim C9: normalization is idempotent. -/
theorem claim_C9 (s : String) :
    RDW.normalize_license_plate (RDW.normalize_license_plate s) =
      RDW.normalize_license_plate s :=
  normalize_idem_helper s

/-- Claim C10: a record missing the brand key (`merk`) or the model key
(`handelsbenaming`) makes `from_dict` fail inside `__pre_deserialize__`
(which indexes both keys unconditionally), so no vehicle with a missing
or defaulted brand or model is ever constructed. -/
theorem claim_C10 (r : RawVehicle)
    (h : r.merk = none ∨ r.handelsbenaming = none) :
    Vehicle.from_dict r = none :=
  from_dict_none_of_missing r h

/-- Witness for claim C10's theorem on the empty record. -/
theorem claim_C10_witness : Vehicle.from_dict emptyRaw = none :=
  claim_C10 emptyRaw (Or.inl rfl)
